import Mathlib

/-
Shallow embedding of the deterministic liquidity engine (portfolio_engine.py)
and proofs about its specified behavior. Machine floats are modelled by exact
rationals; Python dicts are modelled either by total functions with the zero
default (where the code reads them with get and a default) or by association
lists (where key presence is observable). Calendar dates are modelled by
integer day numbers: ISO date strings compare and sort exactly like the day
numbers they denote.
-/

namespace LiquidityEngine

/-- Recognized asset instrument types (module level ASSET_TYPES set). -/
def ASSET_TYPES : List String := ["bond", "mortgage_backed_security", "loan"]

/-- Recognized liability instrument types (module level LIAB_TYPES set). -/
def LIAB_TYPES : List String :=
  ["certificate_of_deposit", "commercial_paper", "repo", "interbank_borrowing",
   "fed_funds", "fed_discount_window", "corporate_deposits", "retail_deposits",
   "sme_deposits"]

/-- Python max on two rationals (ties keep the same value). -/
def pymax (a b : ℚ) : ℚ := if a ≤ b then b else a

/-- Python min on two rationals. -/
def pymin (a b : ℚ) : ℚ := if a ≤ b then a else b

/-- Python abs on a rational. -/
def pyabs (a : ℚ) : ℚ := if a < 0 then -a else a

/-- Python str.lower restricted to ASCII, written by structural recursion so
that it evaluates. -/
def pyLower (s : String) : String := String.mk (s.data.map Char.toLower)

/-- Python str.strip: drop leading and trailing whitespace. -/
def pyTrim (s : String) : String :=
  String.mk (((s.data.dropWhile Char.isWhitespace).reverse.dropWhile
    Char.isWhitespace).reverse)

/-- An instrument record of the liquidity profile. Optional fields model dict
keys that the code reads with a default. -/
structure Instrument where
  id : String
  type : Option String
  hql_level : Option String
  notional : ℚ
  currency : Option String
deriving DecidableEq

/-- Portfolio: the reserve balance (intraday_liquidity.reserve, default 0)
plus the instrument list of liquidity_profile. -/
structure Portfolio where
  reserve : ℚ
  liquidity_profile : List Instrument
deriving DecidableEq

/-- One instrument step of the accumulation loop of compute_hqla_eligible.
State is (l1, l2a, l2b). Liability tagged instruments never count; zero or
negative notionals are skipped; haircuts are 0.85 for Level 2A and 0.50 for
Level 2B. -/
def hqlaStep (acc : ℚ × ℚ × ℚ) (inst : Instrument) : ℚ × ℚ × ℚ :=
  let t := pyLower (inst.type.getD "")
  let lvl := pyLower (pyTrim (inst.hql_level.getD ""))
  let notional := inst.notional
  let is_asset_like := t ∈ ASSET_TYPES
  let has_hqla_tag_not_liability := lvl ≠ "" ∧ t ∉ LIAB_TYPES
  if notional ≤ 0 then acc
  else if ¬ (is_asset_like ∨ has_hqla_tag_not_liability) then acc
  else if lvl = "level 1" then (acc.1 + notional, acc.2.1, acc.2.2)
  else if lvl = "level 2a" then (acc.1, acc.2.1 + notional * (85/100), acc.2.2)
  else if lvl = "level 2b" then (acc.1, acc.2.1, acc.2.2 + notional * (50/100))
  else acc

/-- Accumulated (l1, l2a, l2b) of compute_hqla_eligible before the caps:
reserve counts as Level 1, then the instrument walk. -/
def hqlaRaw (p : Portfolio) : ℚ × ℚ × ℚ :=
  p.liquidity_profile.foldl hqlaStep (p.reserve, 0, 0)

/-- Cap stage of compute_hqla_eligible on an accumulated (l1, l2a, l2b)
triple: the 15 percent Level 2B cap, then the 40 percent aggregate Level 2
cap with proportional rescaling and the 1e-12 epsilon guard; (0, 0, 0) when
the pre cap total is non positive, which is the early return 0.0 of the
code. -/
def capComponents (l1 l2a l2b0 : ℚ) : ℚ × ℚ × ℚ :=
  let total0 := l1 + l2a + l2b0
  if total0 ≤ 0 then (0, 0, 0)
  else
    let cap_2b := (15/100) * total0
    let l2b := if l2b0 > cap_2b then cap_2b else l2b0
    let total := l1 + l2a + l2b
    let cap_l2 := (40/100) * total
    if l2a + l2b > cap_l2 then
      let scale := cap_l2 / (l2a + l2b + 1/1000000000000)
      (l1, l2a * scale, l2b * scale)
    else (l1, l2a, l2b)

/-- Final (l1, l2a, l2b) of compute_hqla_eligible after both caps. -/
def hqlaComponents (p : Portfolio) : ℚ × ℚ × ℚ :=
  capComponents (hqlaRaw p).1 (hqlaRaw p).2.1 (hqlaRaw p).2.2

/-- Pre cap HQLA total: the total in force when the Level 2B cap is applied. -/
def rawTotal (p : Portfolio) : ℚ :=
  (hqlaRaw p).1 + (hqlaRaw p).2.1 + (hqlaRaw p).2.2

/-- HQLA total recomputed after the Level 2B cap, the total in force when the
aggregate Level 2 cap is applied. -/
def post2bTotalQ (l1 l2a l2b0 : ℚ) : ℚ :=
  let total0 := l1 + l2a + l2b0
  let cap_2b := (15/100) * total0
  l1 + l2a + (if l2b0 > cap_2b then cap_2b else l2b0)

/-- The post Level 2B cap total of a portfolio. -/
def post2bTotal (p : Portfolio) : ℚ :=
  post2bTotalQ (hqlaRaw p).1 (hqlaRaw p).2.1 (hqlaRaw p).2.2

/-- compute_hqla_eligible: HQLA stock after haircuts and caps, floored at 0. -/
def compute_hqla_eligible (p : Portfolio) : ℚ :=
  let c := hqlaComponents p
  pymax 0 (c.1 + c.2.1 + c.2.2)

/-- Macro shock inputs read by scenario_to_behavior_params; absent keys take
the documented defaults. -/
structure MacroShocks where
  vix : Option ℚ
  credit_spreads_baa : Option ℚ
  credit_spreads_hy : Option ℚ
  us10y_yield : Option ℚ

/-- Output record of scenario_to_behavior_params. -/
structure BehaviorParams where
  deposit_runoff_30d_pct : ℚ
  notroll_prob_30d : ℚ
  notroll_prob_90d : ℚ
  margin_factor : ℚ
deriving DecidableEq

/-- Severity multiplier table with default 1.0 for unrecognized labels. -/
def sev_mult_of (severity : String) : ℚ :=
  if severity = "mild" then 6/10
  else if severity = "base" then 1
  else if severity = "severe" then 16/10
  else 1

/-- scenario_to_behavior_params: macro shocks plus severity to behavior
parameters. -/
def scenario_to_behavior_params (shocks : MacroShocks) (severity : String) : BehaviorParams :=
  let vix := shocks.vix.getD 18
  let baa := shocks.credit_spreads_baa.getD 180
  let hy := shocks.credit_spreads_hy.getD 400
  let teny := shocks.us10y_yield.getD (42/10)
  let sev_mult := sev_mult_of severity
  let base_runoff := 5/10 + (1/100) * (vix - 18) + (2/1000) * (baa - 180)
  let dep_runoff_30d := pymax (3/10) (pymin 8 (base_runoff * sev_mult))
  let base_notroll_30d := 5 + (6/10) * (vix - 18) + (5/100) * (hy - 400)
  let notroll_30d := pymax 5 (pymin 60 (base_notroll_30d * sev_mult)) / 100
  let notroll_90d := pymin 90 ((notroll_30d * 100) * (15/10)) / 100
  let margin_base := pymax (5/10) (pymin 3 (8/10 + (4/100) * (vix - 18) + (1/10) * (teny - 42/10)))
  { deposit_runoff_30d_pct := dep_runoff_30d / 100
    notroll_prob_30d := notroll_30d
    notroll_prob_90d := notroll_90d
    margin_factor := margin_base * sev_mult }

/-- Output record of compute_kpis_from_daily_detail. -/
structure KpiSet where
  hqla : ℚ
  worst_30d_outflow : ℚ
  lcr : ℚ
  survival_days : ℕ
  peak_cumulative_outflow : ℚ
deriving DecidableEq

/-- compute_kpis_from_daily_detail. The daily detail is modelled as a total
map from date (integer day number) to (inflow, outflow) because the code reads
the dict with get and default 0; dates carrying no events read as (0, 0). -/
def compute_kpis_from_daily_detail (detail : ℤ → ℚ × ℚ) (asof : ℤ) (hqla_base : ℚ)
    (horizon_days : ℕ) : KpiSet :=
  let days := (List.range horizon_days).map (fun (i : ℕ) => asof + (i : ℤ) + 1)
  let inflow := days.map (fun d => (detail d).1)
  let outflow := days.map (fun d => (detail d).2)
  let worst_30 := (List.range (days.length - 29)).foldl
    (fun w i =>
      let win_in := ((inflow.drop i).take 30).sum
      let win_out := ((outflow.drop i).take 30).sum
      let capped_in := pymin win_in ((75/100) * win_out)
      pymax w (pymax 0 (win_out - capped_in))) 1
  let lcr := hqla_base / worst_30
  let fin := (List.range days.length).foldl
    (fun (st : ℚ × ℚ × Option ℕ) idx =>
      let cum := st.1 + (outflow.getD idx 0 - inflow.getD idx 0)
      let peak := pymax st.2.1 cum
      let surv := if st.2.2 = none ∧ cum > hqla_base then some (idx + 1) else st.2.2
      (cum, peak, surv)) (0, 0, none)
  { hqla := hqla_base
    worst_30d_outflow := worst_30
    lcr := lcr
    survival_days := (fin.2.2).getD horizon_days
    peak_cumulative_outflow := fin.2.1 }

/-- Net stressed outflow of the 30 day window whose 0 based start offset is i,
covering days asof+i+1 through asof+i+30: outflow sum minus the inflow sum
capped at 75 percent of the outflow sum, floored at 0. -/
def windowNet (detail : ℤ → ℚ × ℚ) (asof : ℤ) (i : ℕ) : ℚ :=
  let win_in := ((List.range 30).map (fun (j : ℕ) => (detail (asof + (i : ℤ) + (j : ℤ) + 1)).1)).sum
  let win_out := ((List.range 30).map (fun (j : ℕ) => (detail (asof + (i : ℤ) + (j : ℤ) + 1)).2)).sum
  pymax 0 (win_out - pymin win_in ((75/100) * win_out))

/-- Cumulative net outflow (outflow minus inflow) over days 1 through k after
the anchor. -/
def cumNet (detail : ℤ → ℚ × ℚ) (asof : ℤ) (k : ℕ) : ℚ :=
  ((List.range k).map
    (fun (i : ℕ) => (detail (asof + (i : ℤ) + 1)).2 - (detail (asof + (i : ℤ) + 1)).1)).sum

/-- The survival and peak scan loop of compute_kpis_from_daily_detail,
abstracted over the per day net outflow f idx (the code reads
outflow[idx] - inflow[idx]): state is (cum, peak, survival). -/
def survScan (f : ℕ → ℚ) (hq : ℚ) (n : ℕ) : ℚ × ℚ × Option ℕ :=
  (List.range n).foldl
    (fun (st : ℚ × ℚ × Option ℕ) idx =>
      (st.1 + f idx, pymax st.2.1 (st.1 + f idx),
        if st.2.2 = none ∧ st.1 + f idx > hq then some (idx + 1) else st.2.2))
    (0, 0, none)

/-- One cashflow event. Dates are integer day numbers: ISO strings compare and
sort exactly like the days they denote. -/
structure Cashflow where
  instrument_id : String
  type : String
  currency : String
  date : ℤ
  amount : ℚ
deriving DecidableEq

/-- One externally proposed impact record, a dict in the code. Optional fields
model absent keys. The instrument_id field belongs to the external data model;
apply_instrument_impacts_to_cashflows never reads it, only id. -/
structure Impact where
  id : Option String
  action : Option String
  date : Option ℤ
  amount : Option ℚ
  new_maturity : Option ℤ
  instrument_id : Option String
deriving DecidableEq

/-- Lookup in the dict comprehension inst_map mapping instrument id to record;
a later instrument with the same id overwrites an earlier one, hence the scan
of the reversed list. A missing impact id key looks up nothing. -/
def instMapGet (p : Portfolio) (iid : Option String) : Option Instrument :=
  match iid with
  | none => none
  | some s => p.liquidity_profile.reverse.find? (fun i => i.id == s)

/-- Earliest future cashflow of an instrument. The code groups cashflows with
date strictly after asof by instrument, sorts each group stably by date and
takes the head; that head is the first listed cashflow carrying the minimal
future date, computed here by a direct scan with strict comparison. -/
def first_future_cf (cashflows : List Cashflow) (asof : ℤ) (iid : String) : Option Cashflow :=
  (cashflows.filter (fun cf => cf.instrument_id == iid && decide (asof < cf.date))).foldl
    (fun acc cf =>
      match acc with
      | none => some cf
      | some b => if cf.date < b.date then some cf else acc) none

/-- Cashflow entries appended by apply_instrument_impacts_to_cashflows for a
single impact. Impacts with a missing instrument, a missing date or a non
positive amount append nothing. -/
def impactEvents (cashflows : List Cashflow) (p : Portfolio) (asof : ℤ) (imp : Impact) :
    List Cashflow :=
  match imp.id, imp.date with
  | some inst_id, some date_s =>
    match instMapGet p (some inst_id) with
    | none => []
    | some inst =>
      let amt := imp.amount.getD 0
      if amt ≤ 0 then []
      else
        let ccy := inst.currency.getD "USD"
        let typ := pyLower (inst.type.getD "other")
        let old_cf := first_future_cf cashflows asof inst_id
        let old_amt := match old_cf with | some cf => cf.amount | none => 0
        let add := fun (amount : ℚ) (date : ℤ) =>
          ({ instrument_id := inst_id, type := typ, currency := ccy,
             date := date, amount := amount } : Cashflow)
        if imp.action = some "margin_call" ∨ imp.action = some "exercise_option" then
          [add (-amt) date_s]
        else if typ ∈ LIAB_TYPES then
          if imp.action = some "prepay" ∨ imp.action = some "not_rollover" ∨
              imp.action = some "terminate" then
            [add (-amt) date_s] ++
              (match old_cf with | some ocf => [add amt ocf.date] | none => [])
          else if imp.action = some "extend_maturity" then
            match imp.new_maturity with
            | some new_mat =>
              (match old_cf with | some ocf => [add (pyabs old_amt) ocf.date] | none => []) ++
                [add (-pyabs (if amt = 0 then old_amt else amt)) new_mat]
            | none => []
          else []
        else if typ ∈ ASSET_TYPES then
          if imp.action = some "prepay" ∨ imp.action = some "terminate" then
            [add amt date_s] ++
              (match old_cf with | some ocf => [add (-amt) ocf.date] | none => [])
          else if imp.action = some "extend_maturity" then
            match imp.new_maturity with
            | some new_mat =>
              (match old_cf with | some ocf => [add (-pyabs old_amt) ocf.date] | none => []) ++
                [add (pyabs (if amt = 0 then old_amt else amt)) new_mat]
            | none => []
          else []
        else [add (-amt) date_s]
  | _, _ => []

/-- apply_instrument_impacts_to_cashflows. The code copies the original list
and appends entries per impact; every appended entry depends only on the
original cashflows, the portfolio and that one impact (the future index is
built once, before the loop), so the result is the original list followed by
the per impact event blocks in order. -/
def apply_instrument_impacts_to_cashflows (cashflows : List Cashflow) (p : Portfolio)
    (impacts : List Impact) (asof : ℤ) : List Cashflow :=
  cashflows ++ (impacts.map (impactEvents cashflows p asof)).flatten

/-- Daily bucket of roll_daily_contractual_flows_detail at one date d: the
(inflow, outflow) totals of the events dated d inside the horizon window
(strictly after asof, at most asof plus horizon); a date with no events reads
as the zero bucket. -/
def roll_daily_bucket (cashflows : List Cashflow) (asof : ℤ) (horizon_days : ℕ) (d : ℤ) :
    ℚ × ℚ :=
  cashflows.foldl
    (fun acc cf =>
      if asof < cf.date ∧ cf.date ≤ asof + (horizon_days : ℤ) ∧ cf.date = d then
        if 0 ≤ cf.amount then (acc.1 + cf.amount, acc.2) else (acc.1, acc.2 - cf.amount)
      else acc) (0, 0)

/-- One defaultdict update of combine_daily_detail: add (i, o) to the bucket
at key d, creating a zero bucket first when the key is absent. Association
lists model Python dicts, preserving insertion order. -/
def bump : List (ℤ × ℚ × ℚ) → ℤ → ℚ → ℚ → List (ℤ × ℚ × ℚ)
  | [], d, i, o => [(d, i, o)]
  | (d1, io) :: rest, d, i, o =>
    if d1 = d then (d1, io.1 + i, io.2 + o) :: rest
    else (d1, io) :: bump rest d i o

/-- combine_daily_detail: additively merge the given series dicts into one. -/
def combine_daily_detail (series : List (List (ℤ × ℚ × ℚ))) : List (ℤ × ℚ × ℚ) :=
  series.foldl (fun out s => s.foldl (fun acc e => bump acc e.1 e.2.1 e.2.2) out) []

/-- Dict lookup on an association list; dict keys are unique, the first match
wins. Two Python dicts are equal exactly when these lookups agree on every
key. -/
def dlookup : List (ℤ × ℚ × ℚ) → ℤ → Option (ℚ × ℚ)
  | [], _ => none
  | (d1, io) :: rest, d => if d1 = d then some io else dlookup rest d

/-- Bucket read with the zero default, the way every consumer of a daily
series reads it. -/
def bucketAt (s : List (ℤ × ℚ × ℚ)) (d : ℤ) : ℚ × ℚ :=
  (dlookup s d).getD (0, 0)

/-- The deposit runoff formula as the spec words it, named for comparison with
the code: clamp first, then the severity multiplier, then conversion to a
fraction. -/
def claimed_deposit_runoff_30d_pct (shocks : MacroShocks) (severity : String) : ℚ :=
  let vix := shocks.vix.getD 18
  let baa := shocks.credit_spreads_baa.getD 180
  pymax (3/10) (pymin 8 (5/10 + (1/100) * (vix - 18) + (2/1000) * (baa - 180)))
    * sev_mult_of severity / 100

section Lemmas

theorem pymax_eq_max (a b : ℚ) : pymax a b = max a b := by
  rw [pymax, max_def]

theorem pymin_eq_min (a b : ℚ) : pymin a b = min a b := by
  rw [pymin, min_def]

theorem pyabs_eq_abs (a : ℚ) : pyabs a = |a| := by
  rcases lt_or_le a 0 with h | h
  · rw [pyabs, if_pos h, abs_of_neg h]
  · rw [pyabs, if_neg (not_lt.mpr h), abs_of_nonneg h]

/-- Scaling the clamped quantity by a multiplier of at least one can only move
the clamp upward when the lower clamp bound is non negative. -/
theorem clamp_le_clamp_mul (lo hi b m : ℚ) (hlo : 0 ≤ lo) (hm : 1 ≤ m) :
    max lo (min hi b) ≤ max lo (min hi (b * m)) := by
  rcases le_or_lt 0 b with hb | hb
  · exact max_le_max le_rfl (min_le_min le_rfl (le_mul_of_one_le_right hb hm))
  · have h1 : min hi b ≤ lo := le_trans (min_le_right _ _) (le_trans hb.le hlo)
    calc max lo (min hi b) = lo := max_eq_left h1
    _ ≤ max lo (min hi (b * m)) := le_max_left _ _

end Lemmas

/-- C3 (counterexample): with vix 17 and severity mild, the code clamps after
multiplying by the severity factor and returns 0.003, while the claimed
formula, clamping before the multiplier, returns 0.00294. -/
theorem deposit_runoff_clamp_order_counterexample :
    (scenario_to_behavior_params
        { vix := some 17, credit_spreads_baa := none, credit_spreads_hy := none,
          us10y_yield := none } "mild").deposit_runoff_30d_pct = 3/1000
      ∧ claimed_deposit_runoff_30d_pct
          { vix := some 17, credit_spreads_baa := none, credit_spreads_hy := none,
            us10y_yield := none } "mild" = 147/50000
      ∧ (3/1000 : ℚ) ≠ 147/50000 := by
  refine ⟨?_, ?_, by norm_num⟩
  · norm_num [scenario_to_behavior_params, sev_mult_of, pymax, pymin]
  · norm_num [claimed_deposit_runoff_30d_pct, sev_mult_of, pymax, pymin]

/-- C3 (amended): deposit_runoff_30d_pct equals the clamp of the linear macro
response AFTER multiplication by the severity multiplier, divided by 100; the
severity multipliers are mild 0.6, base 1.0, severe 1.6, with vix defaulting
to 18 and credit_spreads_baa to 180 when absent. -/
theorem deposit_runoff_formula_amended (shocks : MacroShocks) (severity : String) :
    (scenario_to_behavior_params shocks severity).deposit_runoff_30d_pct
      = max (3/10) (min 8 ((5/10 + (1/100) * (shocks.vix.getD 18 - 18)
          + (2/1000) * (shocks.credit_spreads_baa.getD 180 - 180)) * sev_mult_of severity)) / 100
      ∧ sev_mult_of "mild" = 6/10 ∧ sev_mult_of "base" = 1
      ∧ sev_mult_of "severe" = 16/10 := by
  refine ⟨?_, rfl, rfl, rfl⟩
  simp only [scenario_to_behavior_params, pymax_eq_max, pymin_eq_min]

/-- C7: for identical macro inputs, each of the four behavior parameters under
severity severe is at least its value under severity base. -/
theorem behavior_params_severe_ge_base (shocks : MacroShocks) :
    (scenario_to_behavior_params shocks "base").deposit_runoff_30d_pct
        ≤ (scenario_to_behavior_params shocks "severe").deposit_runoff_30d_pct
      ∧ (scenario_to_behavior_params shocks "base").notroll_prob_30d
        ≤ (scenario_to_behavior_params shocks "severe").notroll_prob_30d
      ∧ (scenario_to_behavior_params shocks "base").notroll_prob_90d
        ≤ (scenario_to_behavior_params shocks "severe").notroll_prob_90d
      ∧ (scenario_to_behavior_params shocks "base").margin_factor
        ≤ (scenario_to_behavior_params shocks "severe").margin_factor := by
  have hbase : sev_mult_of "base" = 1 := rfl
  have hsev : sev_mult_of "severe" = 16/10 := rfl
  simp only [scenario_to_behavior_params, pymax_eq_max, pymin_eq_min, hbase, hsev]
  have h30 : max (5:ℚ) (min 60 ((5 + 6/10 * (shocks.vix.getD 18 - 18)
      + 5/100 * (shocks.credit_spreads_hy.getD 400 - 400)) * 1))
      ≤ max 5 (min 60 ((5 + 6/10 * (shocks.vix.getD 18 - 18)
      + 5/100 * (shocks.credit_spreads_hy.getD 400 - 400)) * (16/10))) := by
    rw [mul_one]
    exact clamp_le_clamp_mul 5 60 _ (16/10) (by norm_num) (by norm_num)
  simp only [mul_one] at h30
  refine ⟨?_, ?_, ?_, ?_⟩
  · have h := clamp_le_clamp_mul (3/10) 8 ((5/10 + 1/100 * (shocks.vix.getD 18 - 18)
      + 2/1000 * (shocks.credit_spreads_baa.getD 180 - 180))) (16/10) (by norm_num) (by norm_num)
    simp only [mul_one] at h
    simp only [mul_one]
    gcongr
  · simp only [mul_one]
    gcongr
  · simp only [mul_one]
    gcongr
  · have hmb : (0:ℚ) ≤ max (5/10) (min 3 (8/10 + 4/100 * (shocks.vix.getD 18 - 18)
      + 1/10 * (shocks.us10y_yield.getD (42/10) - 42/10))) :=
      le_trans (by norm_num) (le_max_left _ _)
    simp only [mul_one]
    exact le_mul_of_one_le_right hmb (by norm_num)

/-- The accumulation loop keeps the Level 2A and Level 2B components non
negative: contributions are only added, with positive notionals. -/
theorem hqlaStep_l2_nonneg (acc : ℚ × ℚ × ℚ) (i : Instrument)
    (ha : 0 ≤ acc.2.1) (hb : 0 ≤ acc.2.2) :
    0 ≤ (hqlaStep acc i).2.1 ∧ 0 ≤ (hqlaStep acc i).2.2 := by
  simp only [hqlaStep]
  split_ifs with h1 h2 h3 h4 h5 <;> refine ⟨?_, ?_⟩ <;> simp_all <;> nlinarith

/-- Over the whole instrument walk both Level 2 components stay non
negative. -/
theorem hqlaRaw_l2_nonneg (p : Portfolio) :
    0 ≤ (hqlaRaw p).2.1 ∧ 0 ≤ (hqlaRaw p).2.2 := by
  rw [hqlaRaw]
  generalize hgen : (p.reserve, (0:ℚ), (0:ℚ)) = acc0
  have h0 : 0 ≤ acc0.2.1 ∧ 0 ≤ acc0.2.2 := by rw [← hgen]; exact ⟨le_refl 0, le_refl 0⟩
  clear hgen
  induction p.liquidity_profile generalizing acc0 with
  | nil => exact h0
  | cons i rest ih =>
    exact ih (hqlaStep acc0 i) (hqlaStep_l2_nonneg acc0 i h0.1 h0.2)

/-- The Level 2B cap holds against the pre cap total, the total in force when
that cap is applied. -/
theorem capComponents_l2b_le (l1 l2a l2b0 : ℚ) (ha : 0 ≤ l2a) (hb : 0 ≤ l2b0)
    (hpos : 0 < l1 + l2a + l2b0) :
    (capComponents l1 l2a l2b0).2.2 ≤ (15/100) * (l1 + l2a + l2b0) := by
  have h0 : ¬ (l1 + l2a + l2b0 ≤ 0) := not_le.mpr hpos
  simp only [capComponents]
  rw [if_neg h0]
  by_cases hcap : l2b0 > (15/100) * (l1 + l2a + l2b0)
  · rw [if_pos hcap]
    by_cases hsc : l2a + (15/100) * (l1 + l2a + l2b0)
        > (40/100) * (l1 + l2a + (15/100) * (l1 + l2a + l2b0))
    · rw [if_pos hsc]
      dsimp only
      have hD : (0:ℚ) < l2a + (15/100) * (l1 + l2a + l2b0) + 1/1000000000000 := by
        nlinarith
      rcases le_or_lt 0 ((40:ℚ)/100 * (l1 + l2a + (15/100) * (l1 + l2a + l2b0)))
          with hS | hS
      · have hs1 : (40:ℚ)/100 * (l1 + l2a + (15/100) * (l1 + l2a + l2b0)) /
            (l2a + (15/100) * (l1 + l2a + l2b0) + 1/1000000000000) ≤ 1 := by
          rw [div_le_one hD]
          linarith
        calc (15:ℚ)/100 * (l1 + l2a + l2b0) *
              ((40:ℚ)/100 * (l1 + l2a + (15/100) * (l1 + l2a + l2b0)) /
                (l2a + (15/100) * (l1 + l2a + l2b0) + 1/1000000000000))
            ≤ (15:ℚ)/100 * (l1 + l2a + l2b0) * 1 :=
              mul_le_mul_of_nonneg_left hs1 (by nlinarith)
          _ = (15:ℚ)/100 * (l1 + l2a + l2b0) := mul_one _
      · have hsneg : (40:ℚ)/100 * (l1 + l2a + (15/100) * (l1 + l2a + l2b0)) /
            (l2a + (15/100) * (l1 + l2a + l2b0) + 1/1000000000000) < 0 :=
          div_neg_of_neg_of_pos hS hD
        nlinarith
    · rw [if_neg hsc]
  · rw [if_neg hcap]
    by_cases hsc : l2a + l2b0 > (40/100) * (l1 + l2a + l2b0)
    · rw [if_pos hsc]
      dsimp only
      have hD : (0:ℚ) < l2a + l2b0 + 1/1000000000000 := by nlinarith
      have hble : l2b0 ≤ (15/100) * (l1 + l2a + l2b0) := not_lt.mp hcap
      rcases le_or_lt 0 ((40:ℚ)/100 * (l1 + l2a + l2b0)) with hS | hS
      · have hs1 : (40:ℚ)/100 * (l1 + l2a + l2b0) /
            (l2a + l2b0 + 1/1000000000000) ≤ 1 := by
          rw [div_le_one hD]
          linarith
        calc l2b0 * ((40:ℚ)/100 * (l1 + l2a + l2b0) / (l2a + l2b0 + 1/1000000000000))
            ≤ l2b0 * 1 := mul_le_mul_of_nonneg_left hs1 hb
          _ = l2b0 := mul_one _
          _ ≤ (15:ℚ)/100 * (l1 + l2a + l2b0) := hble
      · have hsneg : (40:ℚ)/100 * (l1 + l2a + l2b0) /
            (l2a + l2b0 + 1/1000000000000) < 0 := div_neg_of_neg_of_pos hS hD
        nlinarith
    · rw [if_neg hsc]
      dsimp only
      exact not_lt.mp hcap

/-- The aggregate Level 2 cap holds against the total recomputed after the
Level 2B cap whenever that total is non negative. -/
theorem capComponents_l2_le (l1 l2a l2b0 : ℚ) (ha : 0 ≤ l2a) (hb : 0 ≤ l2b0)
    (hpost : 0 ≤ post2bTotalQ l1 l2a l2b0) :
    (capComponents l1 l2a l2b0).2.1 + (capComponents l1 l2a l2b0).2.2
      ≤ (40/100) * post2bTotalQ l1 l2a l2b0 := by
  simp only [capComponents, post2bTotalQ] at hpost ⊢
  by_cases h0 : l1 + l2a + l2b0 ≤ 0
  · rw [if_pos h0]
    dsimp only
    linarith
  · rw [if_neg h0]
    by_cases hcap : l2b0 > (15/100) * (l1 + l2a + l2b0)
    · rw [if_pos hcap] at hpost ⊢
      by_cases hsc : l2a + (15/100) * (l1 + l2a + l2b0)
          > (40/100) * (l1 + l2a + (15/100) * (l1 + l2a + l2b0))
      · rw [if_pos hsc]
        dsimp only
        have hD : (0:ℚ) < l2a + (15/100) * (l1 + l2a + l2b0) + 1/1000000000000 := by
          have : (0:ℚ) < l1 + l2a + l2b0 := lt_of_not_le h0
          nlinarith
        have heq : l2a * ((40:ℚ)/100 * (l1 + l2a + (15/100) * (l1 + l2a + l2b0)) /
              (l2a + (15/100) * (l1 + l2a + l2b0) + 1/1000000000000))
            + (15/100) * (l1 + l2a + l2b0) *
              ((40:ℚ)/100 * (l1 + l2a + (15/100) * (l1 + l2a + l2b0)) /
              (l2a + (15/100) * (l1 + l2a + l2b0) + 1/1000000000000))
            = (l2a + (15/100) * (l1 + l2a + l2b0)) *
              ((40:ℚ)/100 * (l1 + l2a + (15/100) * (l1 + l2a + l2b0))) /
              (l2a + (15/100) * (l1 + l2a + l2b0) + 1/1000000000000) := by
          ring
        rw [heq, div_le_iff hD]
        nlinarith
      · rw [if_neg hsc]
        dsimp only
        linarith [not_lt.mp hsc]
    · rw [if_neg hcap] at hpost ⊢
      by_cases hsc : l2a + l2b0 > (40/100) * (l1 + l2a + l2b0)
      · rw [if_pos hsc]
        dsimp only
        have hD : (0:ℚ) < l2a + l2b0 + 1/1000000000000 := by nlinarith
        have heq : l2a * ((40:ℚ)/100 * (l1 + l2a + l2b0) /
              (l2a + l2b0 + 1/1000000000000))
            + l2b0 * ((40:ℚ)/100 * (l1 + l2a + l2b0) /
              (l2a + l2b0 + 1/1000000000000))
            = (l2a + l2b0) * ((40:ℚ)/100 * (l1 + l2a + l2b0)) /
              (l2a + l2b0 + 1/1000000000000) := by
          ring
        rw [heq, div_le_iff hD]
        nlinarith
      · rw [if_neg hsc]
        dsimp only
        linarith [not_lt.mp hsc]

/-- C1 (amended): compute_hqla_eligible is non negative for every portfolio;
the final Level 2B component is at most 15 percent of the pre cap total
whenever that total is positive; and the final Level 2A plus 2B components
are at most 40 percent of the total recomputed after the Level 2B cap
whenever that recomputed total is non negative. The code applies each cap to
the total current at that point, not to the returned total as claimed. -/
theorem hqla_nonneg_and_caps (p : Portfolio) :
    0 ≤ compute_hqla_eligible p
    ∧ (0 < rawTotal p → (hqlaComponents p).2.2 ≤ (15/100) * rawTotal p)
    ∧ (0 ≤ post2bTotal p →
        (hqlaComponents p).2.1 + (hqlaComponents p).2.2 ≤ (40/100) * post2bTotal p) := by
  obtain ⟨ha, hb⟩ := hqlaRaw_l2_nonneg p
  refine ⟨?_, fun hpos => ?_, fun hpost => ?_⟩
  · rw [compute_hqla_eligible, pymax_eq_max]
    exact le_max_left 0 _
  · exact capComponents_l2b_le (hqlaRaw p).1 (hqlaRaw p).2.1 (hqlaRaw p).2.2 ha hb hpos
  · exact capComponents_l2_le (hqlaRaw p).1 (hqlaRaw p).2.1 (hqlaRaw p).2.2 ha hb hpost

/-- Closed instance of the amended C1 theorem at a concrete portfolio with
positive totals. -/
theorem hqla_nonneg_and_caps_witness :
    0 < rawTotal
        { reserve := 1000000,
          liquidity_profile :=
            [{ id := "a", type := some "bond", hql_level := some "Level 1",
               notional := 500000, currency := none }] }
    ∧ 0 ≤ post2bTotal
        { reserve := 1000000,
          liquidity_profile :=
            [{ id := "a", type := some "bond", hql_level := some "Level 1",
               notional := 500000, currency := none }] }
    ∧ 0 ≤ compute_hqla_eligible
        { reserve := 1000000,
          liquidity_profile :=
            [{ id := "a", type := some "bond", hql_level := some "Level 1",
               notional := 500000, currency := none }] }
    ∧ (hqlaComponents
        { reserve := 1000000,
          liquidity_profile :=
            [{ id := "a", type := some "bond", hql_level := some "Level 1",
               notional := 500000, currency := none }] }).2.2
        ≤ (15/100) * rawTotal
        { reserve := 1000000,
          liquidity_profile :=
            [{ id := "a", type := some "bond", hql_level := some "Level 1",
               notional := 500000, currency := none }] }
    ∧ (hqlaComponents
        { reserve := 1000000,
          liquidity_profile :=
            [{ id := "a", type := some "bond", hql_level := some "Level 1",
               notional := 500000, currency := none }] }).2.1
      + (hqlaComponents
        { reserve := 1000000,
          liquidity_profile :=
            [{ id := "a", type := some "bond", hql_level := some "Level 1",
               notional := 500000, currency := none }] }).2.2
        ≤ (40/100) * post2bTotal
        { reserve := 1000000,
          liquidity_profile :=
            [{ id := "a", type := some "bond", hql_level := some "Level 1",
               notional := 500000, currency := none }] } := by
  have ht : pyLower "bond" = "bond" := rfl
  have hl : pyLower (pyTrim "Level 1") = "level 1" := rfl
  have h1 : 0 < rawTotal
      { reserve := 1000000,
        liquidity_profile :=
          [{ id := "a", type := some "bond", hql_level := some "Level 1",
             notional := 500000, currency := none }] } := by
    norm_num [rawTotal, hqlaRaw, hqlaStep, ht, hl, ASSET_TYPES, LIAB_TYPES]
  have h2 : 0 ≤ post2bTotal
      { reserve := 1000000,
        liquidity_profile :=
          [{ id := "a", type := some "bond", hql_level := some "Level 1",
             notional := 500000, currency := none }] } := by
    norm_num [post2bTotal, post2bTotalQ, hqlaRaw, hqlaStep, ht, hl, ASSET_TYPES, LIAB_TYPES]
  have h := hqla_nonneg_and_caps
      { reserve := 1000000,
        liquidity_profile :=
          [{ id := "a", type := some "bond", hql_level := some "Level 1",
             notional := 500000, currency := none }] }
  exact ⟨h1, h2, h.1, h.2.1 h1, h.2.2 h2⟩

/-- C1 (counterexample): a portfolio holding a single Level 2A bond of
notional 100 and no reserve. The function returns about 34, all of it Level
2A, so the Level 2 components equal 100 percent of the returned total, far
above the claimed 40 percent even with the 1e-6 tolerance. -/
theorem hqla_cap_vs_returned_total_counterexample :
    ¬ ((hqlaComponents
          { reserve := 0,
            liquidity_profile :=
              [{ id := "a", type := some "bond", hql_level := some "Level 2A",
                 notional := 100, currency := none }] }).2.1
        + (hqlaComponents
          { reserve := 0,
            liquidity_profile :=
              [{ id := "a", type := some "bond", hql_level := some "Level 2A",
                 notional := 100, currency := none }] }).2.2
        ≤ (40/100) * compute_hqla_eligible
          { reserve := 0,
            liquidity_profile :=
              [{ id := "a", type := some "bond", hql_level := some "Level 2A",
                 notional := 100, currency := none }] } + 1/1000000) := by
  have ht : pyLower "bond" = "bond" := rfl
  have hl : pyLower (pyTrim "Level 2A") = "level 2a" := rfl
  have e1 : ("level 2a" : String) ≠ "level 1" := by decide
  norm_num [compute_hqla_eligible, hqlaComponents, capComponents, hqlaRaw, hqlaStep,
    pymax, pymin, ht, hl, e1, ASSET_TYPES, LIAB_TYPES]

/-- An impact whose event block is empty can be removed from the impact list
without changing the result. -/
theorem events_empty_skip (cashflows : List Cashflow) (p : Portfolio)
    (pre suf : List Impact) (imp : Impact) (asof : ℤ)
    (he : impactEvents cashflows p asof imp = []) :
    apply_instrument_impacts_to_cashflows cashflows p (pre ++ imp :: suf) asof
      = apply_instrument_impacts_to_cashflows cashflows p (pre ++ suf) asof := by
  simp only [apply_instrument_impacts_to_cashflows, List.map_append, List.map_cons,
    List.flatten_append, List.flatten_cons, he, List.nil_append]

/-- C10: apply_instrument_impacts_to_cashflows reads the instrument reference
only from the id field of the impact record; an impact with no id key
contributes no events and leaves the result unchanged, even when its
instrument_id field names an existing instrument. -/
theorem impact_without_id_ignored (cashflows : List Cashflow) (p : Portfolio)
    (pre suf : List Impact) (imp : Impact) (asof : ℤ) (h : imp.id = none) :
    apply_instrument_impacts_to_cashflows cashflows p (pre ++ imp :: suf) asof
      = apply_instrument_impacts_to_cashflows cashflows p (pre ++ suf) asof := by
  apply events_empty_skip
  cases hdate : imp.date <;> simp [impactEvents, h, hdate]

/-- Closed instance of the C10 theorem: an impact carrying only instrument_id
(set to an existing instrument) but no id is ignored. -/
theorem impact_without_id_ignored_witness :
    ({ id := none, action := some "not_rollover", date := some 5, amount := some 10,
       new_maturity := none, instrument_id := some "a" } : Impact).id = none
    ∧ apply_instrument_impacts_to_cashflows []
        { reserve := 0,
          liquidity_profile := [{ id := "a", type := some "repo", hql_level := none,
                                  notional := 100, currency := some "USD" }] }
        [{ id := none, action := some "not_rollover", date := some 5, amount := some 10,
           new_maturity := none, instrument_id := some "a" }] 0
      = apply_instrument_impacts_to_cashflows []
        { reserve := 0,
          liquidity_profile := [{ id := "a", type := some "repo", hql_level := none,
                                  notional := 100, currency := some "USD" }] }
        [] 0 :=
  ⟨rfl, impact_without_id_ignored []
    { reserve := 0,
      liquidity_profile := [{ id := "a", type := some "repo", hql_level := none,
                              notional := 100, currency := some "USD" }] }
    [] []
    { id := none, action := some "not_rollover", date := some 5, amount := some 10,
      new_maturity := none, instrument_id := some "a" } 0 rfl⟩

/-- C8: an impact whose instrument lookup finds nothing, whose date is absent,
or whose amount is non positive appends no events and raises no error: the
result equals the run with that impact removed from the list. -/
theorem malformed_impact_skipped (cashflows : List Cashflow) (p : Portfolio)
    (pre suf : List Impact) (imp : Impact) (asof : ℤ)
    (h : instMapGet p imp.id = none ∨ imp.date = none ∨ imp.amount.getD 0 ≤ 0) :
    apply_instrument_impacts_to_cashflows cashflows p (pre ++ imp :: suf) asof
      = apply_instrument_impacts_to_cashflows cashflows p (pre ++ suf) asof := by
  apply events_empty_skip
  rcases h with h | h | h
  · cases hid : imp.id with
    | none => cases hdate : imp.date <;> simp [impactEvents, hid, hdate]
    | some s =>
      rw [hid] at h
      cases hdate : imp.date <;> simp [impactEvents, hid, hdate, h]
  · cases hid : imp.id <;> simp [impactEvents, h]
  · cases hid : imp.id with
    | none => cases hdate : imp.date <;> simp [impactEvents, hid, hdate]
    | some s =>
      cases hdate : imp.date with
      | none => simp [impactEvents, hid, hdate]
      | some d =>
        cases hins : instMapGet p (some s) <;>
          simp [impactEvents, hid, hdate, hins, h]

/-- Closed instance of the C8 theorem: an impact with a date but amount 0 on
an existing instrument is skipped. -/
theorem malformed_impact_skipped_witness :
    (instMapGet
        { reserve := 0,
          liquidity_profile := [{ id := "a", type := some "repo", hql_level := none,
                                  notional := 100, currency := some "USD" }] }
        ({ id := some "a", action := some "prepay", date := some 3, amount := some 0,
           new_maturity := none, instrument_id := none } : Impact).id = none
      ∨ ({ id := some "a", action := some "prepay", date := some 3, amount := some 0,
           new_maturity := none, instrument_id := none } : Impact).date = none
      ∨ ({ id := some "a", action := some "prepay", date := some 3, amount := some 0,
           new_maturity := none, instrument_id := none } : Impact).amount.getD 0 ≤ 0)
    ∧ apply_instrument_impacts_to_cashflows
        [{ instrument_id := "a", type := "repo", currency := "USD", date := 9, amount := -7 }]
        { reserve := 0,
          liquidity_profile := [{ id := "a", type := some "repo", hql_level := none,
                                  notional := 100, currency := some "USD" }] }
        [{ id := some "a", action := some "prepay", date := some 3, amount := some 0,
           new_maturity := none, instrument_id := none }] 0
      = apply_instrument_impacts_to_cashflows
        [{ instrument_id := "a", type := "repo", currency := "USD", date := 9, amount := -7 }]
        { reserve := 0,
          liquidity_profile := [{ id := "a", type := some "repo", hql_level := none,
                                  notional := 100, currency := some "USD" }] }
        [] 0 :=
  ⟨Or.inr (Or.inr (by decide)),
    malformed_impact_skipped
      [{ instrument_id := "a", type := "repo", currency := "USD", date := 9, amount := -7 }]
      { reserve := 0,
        liquidity_profile := [{ id := "a", type := some "repo", hql_level := none,
                                notional := 100, currency := some "USD" }] }
      [] []
      { id := some "a", action := some "prepay", date := some 3, amount := some 0,
        new_maturity := none, instrument_id := none } 0
      (Or.inr (Or.inr (by decide)))⟩

/-- C4 (amended): a liability extend_maturity impact with a new maturity,
positive amount and an existing earliest future leg appends exactly two
events: a positive offset of the absolute original amount at the original
date, and a negative event of magnitude equal to the impact amount (not the
maximum of the amount and the original amount) at the new maturity. -/
theorem liability_extend_maturity_events (cashflows : List Cashflow) (p : Portfolio)
    (imp : Impact) (asof : ℤ) (iid : String) (inst : Instrument) (nm d : ℤ) (ocf : Cashflow)
    (hid : imp.id = some iid) (hdate : imp.date = some d)
    (hins : instMapGet p (some iid) = some inst)
    (htyp : pyLower (inst.type.getD "other") ∈ LIAB_TYPES)
    (hact : imp.action = some "extend_maturity")
    (hnm : imp.new_maturity = some nm)
    (hamt : 0 < imp.amount.getD 0)
    (hold : first_future_cf cashflows asof iid = some ocf) :
    apply_instrument_impacts_to_cashflows cashflows p [imp] asof
      = cashflows ++
        [{ instrument_id := iid, type := pyLower (inst.type.getD "other"),
           currency := inst.currency.getD "USD", date := ocf.date, amount := |ocf.amount| },
         { instrument_id := iid, type := pyLower (inst.type.getD "other"),
           currency := inst.currency.getD "USD", date := nm,
           amount := -(imp.amount.getD 0) }] := by
  have hne : imp.amount.getD 0 ≠ 0 := ne_of_gt hamt
  have hnle : ¬ imp.amount.getD 0 ≤ 0 := not_le.mpr hamt
  simp [apply_instrument_impacts_to_cashflows, impactEvents, hid, hdate, hins, hold,
    hact, hnm, htyp, hnle, hne, pyabs_eq_abs, abs_of_pos hamt]

/-- Closed instance of the amended C4 theorem: extending a repo with original
leg -10 by an impact of amount 5 appends the +10 offset and a -5 event. -/
theorem liability_extend_maturity_events_witness :
    (0 < (({ id := some "L1", action := some "extend_maturity", date := some 1,
             amount := some 5, new_maturity := some 20, instrument_id := none } : Impact).amount.getD 0)
      ∧ pyLower ((some "repo" : Option String).getD "other") ∈ LIAB_TYPES)
    ∧ apply_instrument_impacts_to_cashflows
        [{ instrument_id := "L1", type := "repo", currency := "USD", date := 10, amount := -10 }]
        { reserve := 0,
          liquidity_profile := [{ id := "L1", type := some "repo", hql_level := none,
                                  notional := 0, currency := some "USD" }] }
        [{ id := some "L1", action := some "extend_maturity", date := some 1,
           amount := some 5, new_maturity := some 20, instrument_id := none }] 0
      = [{ instrument_id := "L1", type := "repo", currency := "USD", date := 10, amount := -10 },
         { instrument_id := "L1", type := "repo", currency := "USD", date := 10,
           amount := |(-10 : ℚ)| },
         { instrument_id := "L1", type := "repo", currency := "USD", date := 20,
           amount := -(5 : ℚ) }] := by
  refine ⟨⟨by decide, by decide⟩, ?_⟩
  rw [liability_extend_maturity_events
    [{ instrument_id := "L1", type := "repo", currency := "USD", date := 10, amount := -10 }]
    { reserve := 0,
      liquidity_profile := [{ id := "L1", type := some "repo", hql_level := none,
                              notional := 0, currency := some "USD" }] }
    { id := some "L1", action := some "extend_maturity", date := some 1,
      amount := some 5, new_maturity := some 20, instrument_id := none }
    0 "L1"
    { id := "L1", type := some "repo", hql_level := none, notional := 0, currency := some "USD" }
    20 1
    { instrument_id := "L1", type := "repo", currency := "USD", date := 10, amount := -10 }
    rfl rfl (by decide) (by decide) rfl rfl (by decide) (by decide)]
  rfl

/-- C4 (counterexample): with an original leg of -10 and an impact amount of
5, the code appends a new event of magnitude 5, not max(5, 10) = 10 as
claimed. -/
theorem extend_maturity_magnitude_counterexample :
    apply_instrument_impacts_to_cashflows
        [{ instrument_id := "L1", type := "repo", currency := "USD", date := 10, amount := -10 }]
        { reserve := 0,
          liquidity_profile := [{ id := "L1", type := some "repo", hql_level := none,
                                  notional := 0, currency := some "USD" }] }
        [{ id := some "L1", action := some "extend_maturity", date := some 1,
           amount := some 5, new_maturity := some 20, instrument_id := none }] 0
      = [{ instrument_id := "L1", type := "repo", currency := "USD", date := 10, amount := -10 },
         { instrument_id := "L1", type := "repo", currency := "USD", date := 10, amount := 10 },
         { instrument_id := "L1", type := "repo", currency := "USD", date := 20, amount := -5 }]
    ∧ apply_instrument_impacts_to_cashflows
        [{ instrument_id := "L1", type := "repo", currency := "USD", date := 10, amount := -10 }]
        { reserve := 0,
          liquidity_profile := [{ id := "L1", type := some "repo", hql_level := none,
                                  notional := 0, currency := some "USD" }] }
        [{ id := some "L1", action := some "extend_maturity", date := some 1,
           amount := some 5, new_maturity := some 20, instrument_id := none }] 0
      ≠ [{ instrument_id := "L1", type := "repo", currency := "USD", date := 10, amount := -10 },
         { instrument_id := "L1", type := "repo", currency := "USD", date := 10, amount := 10 },
         { instrument_id := "L1", type := "repo", currency := "USD", date := 20,
           amount := -(max 5 |(-10 : ℚ)|) }] := by
  have hmax : max (5:ℚ) |(-10 : ℚ)| = 10 := by
    rw [abs_of_neg (by norm_num : (-10 : ℚ) < 0)]
    norm_num
  constructor
  · decide
  · rw [hmax]
    decide

/-- C5 (amended): a not_rollover impact of amount X on a liability instrument
whose sole future cashflow is the leg at date D appends exactly the two events
(-X, impact_date) and (+X, D), preserving every original event; for D inside
the horizon and an impact date different from D, the rolled up net flow of the
date D bucket changes by +X relative to the unmodified baseline (zero change
would require the two added events to land on the same date). When X equals
the magnitude of an outflow leg, this +X exactly offsets the still scheduled
maturity. -/
theorem liability_not_rollover_events (cashflows : List Cashflow) (p : Portfolio)
    (imp : Impact) (asof : ℤ) (iid : String) (inst : Instrument) (dI : ℤ) (leg : Cashflow)
    (horizon_days : ℕ)
    (hid : imp.id = some iid) (hdate : imp.date = some dI)
    (hins : instMapGet p (some iid) = some inst)
    (htyp : pyLower (inst.type.getD "other") ∈ LIAB_TYPES)
    (hact : imp.action = some "not_rollover")
    (hamt : 0 < imp.amount.getD 0)
    (hsole : cashflows.filter
        (fun cf => cf.instrument_id == iid && decide (asof < cf.date)) = [leg])
    (hne : dI ≠ leg.date)
    (hhor : leg.date ≤ asof + (horizon_days : ℤ)) :
    apply_instrument_impacts_to_cashflows cashflows p [imp] asof
      = cashflows ++
        [{ instrument_id := iid, type := pyLower (inst.type.getD "other"),
           currency := inst.currency.getD "USD", date := dI,
           amount := -(imp.amount.getD 0) },
         { instrument_id := iid, type := pyLower (inst.type.getD "other"),
           currency := inst.currency.getD "USD", date := leg.date,
           amount := imp.amount.getD 0 }]
    ∧ (roll_daily_bucket (apply_instrument_impacts_to_cashflows cashflows p [imp] asof)
          asof horizon_days leg.date).1
        - (roll_daily_bucket (apply_instrument_impacts_to_cashflows cashflows p [imp] asof)
          asof horizon_days leg.date).2
      = ((roll_daily_bucket cashflows asof horizon_days leg.date).1
          - (roll_daily_bucket cashflows asof horizon_days leg.date).2)
        + imp.amount.getD 0 := by
  have hffc : first_future_cf cashflows asof iid = some leg := by
    rw [first_future_cf, hsole]
    rfl
  have hfut : asof < leg.date := by
    have hmem : leg ∈ cashflows.filter
        (fun cf => cf.instrument_id == iid && decide (asof < cf.date)) := by
      rw [hsole]
      exact List.mem_singleton.mpr rfl
    have hp := List.of_mem_filter hmem
    simp only [Bool.and_eq_true, decide_eq_true_eq] at hp
    exact hp.2
  have hnle : ¬ imp.amount.getD 0 ≤ 0 := not_le.mpr hamt
  have happly : apply_instrument_impacts_to_cashflows cashflows p [imp] asof
      = cashflows ++
        [{ instrument_id := iid, type := pyLower (inst.type.getD "other"),
           currency := inst.currency.getD "USD", date := dI,
           amount := -(imp.amount.getD 0) },
         { instrument_id := iid, type := pyLower (inst.type.getD "other"),
           currency := inst.currency.getD "USD", date := leg.date,
           amount := imp.amount.getD 0 }] := by
    simp [apply_instrument_impacts_to_cashflows, impactEvents, hid, hdate, hins, hffc,
      hact, htyp, hnle]
  refine ⟨happly, ?_⟩
  rw [happly]
  simp only [roll_daily_bucket, List.foldl_append, List.foldl_cons, List.foldl_nil]
  rw [if_neg (show ¬ (asof < dI ∧ dI ≤ asof + (horizon_days : ℤ) ∧ dI = leg.date) from
    fun hcon => hne hcon.2.2)]
  rw [if_pos (show asof < leg.date ∧ leg.date ≤ asof + (horizon_days : ℤ) ∧ True from
    ⟨hfut, hhor, trivial⟩)]
  rw [if_pos hamt.le]
  dsimp only
  ring

/-- Closed instance of the amended C5 theorem: not rolling a CD with sole leg
-100 at date 10 by an impact of 100 dated 1 appends (-100, 1) and (+100, 10)
and raises the date 10 net by +100, back to zero. -/
theorem liability_not_rollover_events_witness :
    ((1 : ℤ) ≠ 10 ∧ (0:ℚ) < 100 ∧
      ([{ instrument_id := "L1", type := "certificate_of_deposit", currency := "USD",
          date := 10, amount := -100 }] : List Cashflow).filter
        (fun cf => cf.instrument_id == "L1" && decide ((0:ℤ) < cf.date))
        = [{ instrument_id := "L1", type := "certificate_of_deposit", currency := "USD",
             date := 10, amount := -100 }])
    ∧ (apply_instrument_impacts_to_cashflows
        [{ instrument_id := "L1", type := "certificate_of_deposit", currency := "USD",
           date := 10, amount := -100 }]
        { reserve := 0,
          liquidity_profile := [{ id := "L1", type := some "certificate_of_deposit",
                                  hql_level := none, notional := 0, currency := some "USD" }] }
        [{ id := some "L1", action := some "not_rollover", date := some 1,
           amount := some 100, new_maturity := none, instrument_id := none }] 0
      = [{ instrument_id := "L1", type := "certificate_of_deposit", currency := "USD",
           date := 10, amount := -100 },
         { instrument_id := "L1", type := "certificate_of_deposit", currency := "USD",
           date := 1, amount := -(100:ℚ) },
         { instrument_id := "L1", type := "certificate_of_deposit", currency := "USD",
           date := 10, amount := (100:ℚ) }]
    ∧ (roll_daily_bucket (apply_instrument_impacts_to_cashflows
          [{ instrument_id := "L1", type := "certificate_of_deposit", currency := "USD",
             date := 10, amount := -100 }]
          { reserve := 0,
            liquidity_profile := [{ id := "L1", type := some "certificate_of_deposit",
                                    hql_level := none, notional := 0, currency := some "USD" }] }
          [{ id := some "L1", action := some "not_rollover", date := some 1,
             amount := some 100, new_maturity := none, instrument_id := none }] 0)
          0 180 10).1
        - (roll_daily_bucket (apply_instrument_impacts_to_cashflows
          [{ instrument_id := "L1", type := "certificate_of_deposit", currency := "USD",
             date := 10, amount := -100 }]
          { reserve := 0,
            liquidity_profile := [{ id := "L1", type := some "certificate_of_deposit",
                                    hql_level := none, notional := 0, currency := some "USD" }] }
          [{ id := some "L1", action := some "not_rollover", date := some 1,
             amount := some 100, new_maturity := none, instrument_id := none }] 0)
          0 180 10).2
      = ((roll_daily_bucket
          [{ instrument_id := "L1", type := "certificate_of_deposit", currency := "USD",
             date := 10, amount := -100 }] 0 180 10).1
          - (roll_daily_bucket
          [{ instrument_id := "L1", type := "certificate_of_deposit", currency := "USD",
             date := 10, amount := -100 }] 0 180 10).2)
        + (100:ℚ)) := by
  refine ⟨⟨by decide, by norm_num, by decide⟩, ?_⟩
  exact liability_not_rollover_events
    [{ instrument_id := "L1", type := "certificate_of_deposit", currency := "USD",
       date := 10, amount := -100 }]
    { reserve := 0,
      liquidity_profile := [{ id := "L1", type := some "certificate_of_deposit",
                              hql_level := none, notional := 0, currency := some "USD" }] }
    { id := some "L1", action := some "not_rollover", date := some 1,
      amount := some 100, new_maturity := none, instrument_id := none }
    0 "L1"
    { id := "L1", type := some "certificate_of_deposit", hql_level := none,
      notional := 0, currency := some "USD" }
    1
    { instrument_id := "L1", type := "certificate_of_deposit", currency := "USD",
      date := 10, amount := -100 }
    180 rfl rfl (by decide) (by decide) rfl (by norm_num) (by decide) (by decide) (by decide)

/-- C5 (counterexample): with an inflow leg Y = +100 at date 10 and a
not_rollover impact of X = 100 dated 1, X equals Y but the net change of the
date 10 bucket after roll up is +100, not zero. -/
theorem not_rollover_net_change_counterexample :
    ((roll_daily_bucket (apply_instrument_impacts_to_cashflows
          [{ instrument_id := "L1", type := "certificate_of_deposit", currency := "USD",
             date := 10, amount := 100 }]
          { reserve := 0,
            liquidity_profile := [{ id := "L1", type := some "certificate_of_deposit",
                                    hql_level := none, notional := 0, currency := some "USD" }] }
          [{ id := some "L1", action := some "not_rollover", date := some 1,
             amount := some 100, new_maturity := none, instrument_id := none }] 0)
          0 180 10).1
        - (roll_daily_bucket (apply_instrument_impacts_to_cashflows
          [{ instrument_id := "L1", type := "certificate_of_deposit", currency := "USD",
             date := 10, amount := 100 }]
          { reserve := 0,
            liquidity_profile := [{ id := "L1", type := some "certificate_of_deposit",
                                    hql_level := none, notional := 0, currency := some "USD" }] }
          [{ id := some "L1", action := some "not_rollover", date := some 1,
             amount := some 100, new_maturity := none, instrument_id := none }] 0)
          0 180 10).2)
      - ((roll_daily_bucket
          [{ instrument_id := "L1", type := "certificate_of_deposit", currency := "USD",
             date := 10, amount := 100 }] 0 180 10).1
        - (roll_daily_bucket
          [{ instrument_id := "L1", type := "certificate_of_deposit", currency := "USD",
             date := 10, amount := 100 }] 0 180 10).2)
      ≠ 0 := by
  have happ : apply_instrument_impacts_to_cashflows
      [{ instrument_id := "L1", type := "certificate_of_deposit", currency := "USD",
         date := 10, amount := 100 }]
      { reserve := 0,
        liquidity_profile := [{ id := "L1", type := some "certificate_of_deposit",
                                hql_level := none, notional := 0, currency := some "USD" }] }
      [{ id := some "L1", action := some "not_rollover", date := some 1,
         amount := some 100, new_maturity := none, instrument_id := none }] 0
      = [{ instrument_id := "L1", type := "certificate_of_deposit", currency := "USD",
           date := 10, amount := 100 },
         { instrument_id := "L1", type := "certificate_of_deposit", currency := "USD",
           date := 1, amount := -100 },
         { instrument_id := "L1", type := "certificate_of_deposit", currency := "USD",
           date := 10, amount := 100 }] := by decide
  rw [happ]
  norm_num [roll_daily_bucket, List.foldl]

/-- Lookup after a single defaultdict bump: the bumped key reads its old value
(zero when absent) plus the increment, every other key is untouched. -/
theorem dlookup_bump (acc : List (ℤ × ℚ × ℚ)) (d : ℤ) (i o : ℚ) (k : ℤ) :
    dlookup (bump acc d i o) k =
      if d = k then
        some (((dlookup acc d).getD (0, 0)).1 + i, ((dlookup acc d).getD (0, 0)).2 + o)
      else dlookup acc k := by
  induction acc with
  | nil =>
    by_cases h : d = k
    · subst h
      simp [bump, dlookup]
    · simp [bump, dlookup, h]
  | cons e rest ih =>
    obtain ⟨d1, io⟩ := e
    by_cases h1 : d1 = d
    · subst h1
      by_cases h2 : d1 = k
      · subst h2
        simp [bump, dlookup]
      · simp [bump, dlookup, h2]
    · have h1s : ¬ (d = d1) := fun h => h1 h.symm
      by_cases h2 : d1 = k
      · subst h2
        simp [bump, dlookup, h1, h1s]
      · simp [bump, dlookup, h1, h2, ih]

/-- Lookup after folding one series dict into an accumulator: a key of the
series reads the accumulator value (zero when absent) plus that single entry
(keys of a dict are distinct), any other key is untouched. -/
theorem dlookup_foldl_bump (s : List (ℤ × ℚ × ℚ)) (acc : List (ℤ × ℚ × ℚ)) (k : ℤ)
    (hnd : (s.map (fun e => e.1)).Nodup) :
    dlookup (s.foldl (fun a e => bump a e.1 e.2.1 e.2.2) acc) k =
      match s.find? (fun e => e.1 == k) with
      | some e => some (((dlookup acc k).getD (0, 0)).1 + e.2.1,
                        ((dlookup acc k).getD (0, 0)).2 + e.2.2)
      | none => dlookup acc k := by
  induction s generalizing acc with
  | nil => simp
  | cons e rest ih =>
    obtain ⟨d1, io⟩ := e
    simp only [List.map_cons, List.nodup_cons] at hnd
    obtain ⟨hd1, hndr⟩ := hnd
    simp only [List.foldl_cons]
    rw [ih _ hndr]
    by_cases hk : d1 = k
    · subst hk
      have hfn : rest.find? (fun e => e.1 == d1) = none := by
        rw [List.find?_eq_none]
        intro x hx
        simp only [beq_iff_eq]
        intro heq
        exact hd1 (by rw [← heq]; exact List.mem_map_of_mem _ hx)
      rw [hfn, dlookup_bump, if_pos rfl]
      rw [List.find?_cons_of_pos _ (by simp)]
    · rw [List.find?_cons_of_neg _ (by simp [hk]), dlookup_bump, if_neg hk]

/-- dlookup is find? followed by the value projection. -/
theorem dlookup_eq_find? (s : List (ℤ × ℚ × ℚ)) (k : ℤ) :
    dlookup s k = (s.find? (fun e => e.1 == k)).map (fun e => e.2) := by
  induction s with
  | nil => rfl
  | cons e rest ih =>
    obtain ⟨d1, io⟩ := e
    by_cases h : d1 = k
    · subst h
      rw [List.find?_cons_of_pos _ (by simp)]
      simp [dlookup]
    · rw [List.find?_cons_of_neg _ (by simp [h])]
      simp [dlookup, h, ih]

/-- A key present among the keys of a dict looks up to some value. -/
theorem dlookup_isSome_of_mem_keys (s : List (ℤ × ℚ × ℚ)) (k : ℤ)
    (h : k ∈ s.map (fun e => e.1)) : ∃ io, dlookup s k = some io := by
  induction s with
  | nil => simp at h
  | cons e rest ih =>
    obtain ⟨d1, io⟩ := e
    by_cases hk : d1 = k
    · subst hk
      exact ⟨io, by simp [dlookup]⟩
    · simp only [List.map_cons, List.mem_cons] at h
      rcases h with h | h
      · exact absurd h.symm hk
      · obtain ⟨io2, hio⟩ := ih h
        exact ⟨io2, by simp [dlookup, hk, hio]⟩

/-- C9 (amended): combining a series S with an all zero series Z returns a
series that agrees with S pointwise on every date (reading absent dates as the
zero bucket); it equals S as a dict exactly on the keys, so full dict equality
additionally requires every key of Z to be a key of S, otherwise the result
carries extra zero buckets that S does not have. -/
theorem combine_with_zero_series (S Z : List (ℤ × ℚ × ℚ))
    (hS : (S.map (fun e => e.1)).Nodup) (hZ : (Z.map (fun e => e.1)).Nodup)
    (hzero : ∀ e ∈ Z, e.2 = ((0 : ℚ), (0 : ℚ))) :
    (∀ d, bucketAt (combine_daily_detail [S, Z]) d = bucketAt S d)
    ∧ ((∀ e ∈ Z, e.1 ∈ S.map (fun x => x.1)) →
        ∀ d, dlookup (combine_daily_detail [S, Z]) d = dlookup S d) := by
  have hbase : ∀ d, dlookup (S.foldl (fun a e => bump a e.1 e.2.1 e.2.2) []) d
      = dlookup S d := by
    intro d
    rw [dlookup_foldl_bump S [] d hS, dlookup_eq_find? S d]
    cases hf : S.find? (fun e => e.1 == d) with
    | none => rfl
    | some e => simp [dlookup]
  have hfull : ∀ d, dlookup (combine_daily_detail [S, Z]) d
      = match Z.find? (fun e => e.1 == d) with
        | some _ => some ((dlookup S d).getD (0, 0))
        | none => dlookup S d := by
    intro d
    simp only [combine_daily_detail, List.foldl_cons, List.foldl_nil]
    rw [dlookup_foldl_bump Z _ d hZ]
    cases hf : Z.find? (fun e => e.1 == d) with
    | none => exact hbase d
    | some e =>
      have he : e.2 = ((0 : ℚ), (0 : ℚ)) := hzero e (List.mem_of_find?_eq_some hf)
      have he1 : e.2.1 = 0 := by rw [he]
      have he2 : e.2.2 = 0 := by rw [he]
      simp [hbase d, he1, he2]
  constructor
  · intro d
    rw [bucketAt, bucketAt, hfull d]
    cases hf : Z.find? (fun e => e.1 == d) with
    | none => rfl
    | some e => simp
  · intro hsub d
    rw [hfull d]
    cases hf : Z.find? (fun e => e.1 == d) with
    | none => rfl
    | some e =>
      have hmem : e ∈ Z := List.mem_of_find?_eq_some hf
      have hkey : e.1 = d := by
        have := List.find?_some hf
        simpa using this
      obtain ⟨io, hio⟩ := dlookup_isSome_of_mem_keys S d (by rw [← hkey]; exact hsub e hmem)
      rw [hio]
      rfl

/-- Closed instance of the amended C9 theorem for S = {1: (2, 3)} and
Z = {1: (0, 0)}. -/
theorem combine_with_zero_series_witness :
    ((([((1:ℤ), (2:ℚ), (3:ℚ))]).map (fun e => e.1)).Nodup
      ∧ (∀ e ∈ ([((1:ℤ), (0:ℚ), (0:ℚ))] : List (ℤ × ℚ × ℚ)), e.2 = ((0:ℚ), (0:ℚ)))
      ∧ (∀ e ∈ ([((1:ℤ), (0:ℚ), (0:ℚ))] : List (ℤ × ℚ × ℚ)),
          e.1 ∈ ([((1:ℤ), (2:ℚ), (3:ℚ))]).map (fun x => x.1)))
    ∧ (∀ d, bucketAt (combine_daily_detail [[((1:ℤ), (2:ℚ), (3:ℚ))],
          [((1:ℤ), (0:ℚ), (0:ℚ))]]) d = bucketAt [((1:ℤ), (2:ℚ), (3:ℚ))] d)
    ∧ (∀ d, dlookup (combine_daily_detail [[((1:ℤ), (2:ℚ), (3:ℚ))],
          [((1:ℤ), (0:ℚ), (0:ℚ))]]) d = dlookup [((1:ℤ), (2:ℚ), (3:ℚ))] d) := by
  have h := combine_with_zero_series [((1:ℤ), (2:ℚ), (3:ℚ))] [((1:ℤ), (0:ℚ), (0:ℚ))]
    (by decide) (by decide) (by decide)
  exact ⟨⟨by decide, by decide, by decide⟩, h.1, h.2 (by decide)⟩

/-- C9 (counterexample): combining the empty series with the all zero series
{0: (0, 0)} yields a dict holding the key 0, so the result is not equal to the
original series as a dict. -/
theorem combine_zero_series_counterexample :
    ¬ (∀ d, dlookup (combine_daily_detail [([] : List (ℤ × ℚ × ℚ)),
        [((0:ℤ), (0:ℚ), (0:ℚ))]]) d = dlookup ([] : List (ℤ × ℚ × ℚ)) d) := by
  intro h
  exact absurd (h 0) (by decide)

/-- Folding pymax over a list of window nets yields the least upper bound of
the initial value and the nets, attained by one of them. -/
theorem foldl_pymax_spec (f : ℕ → ℚ) (l : List ℕ) (a : ℚ) :
    a ≤ l.foldl (fun w i => pymax w (f i)) a
    ∧ (∀ i ∈ l, f i ≤ l.foldl (fun w i => pymax w (f i)) a)
    ∧ (l.foldl (fun w i => pymax w (f i)) a = a
        ∨ ∃ i ∈ l, l.foldl (fun w i => pymax w (f i)) a = f i) := by
  induction l generalizing a with
  | nil => simp
  | cons j rest ih =>
    obtain ⟨h1, h2, h3⟩ := ih (pymax a (f j))
    simp only [List.foldl_cons]
    have ha : a ≤ pymax a (f j) := by rw [pymax_eq_max]; exact le_max_left _ _
    have hf : f j ≤ pymax a (f j) := by rw [pymax_eq_max]; exact le_max_right _ _
    refine ⟨le_trans ha h1, ?_, ?_⟩
    · intro i hi
      rcases List.mem_cons.mp hi with h | h
      · rw [h]
        exact le_trans hf h1
      · exact h2 i h
    · rcases h3 with h | ⟨i, hi, hv⟩
      · rcases max_cases a (f j) with ⟨hm, _⟩ | ⟨hm, _⟩
        · left
          rw [h, pymax_eq_max, hm]
        · right
          exact ⟨j, List.mem_cons_self _ _, by rw [h, pymax_eq_max, hm]⟩
      · right
        exact ⟨i, List.mem_cons_of_mem _ hi, hv⟩

/-- Pointwise equal fold functions fold equal over the same list. -/
theorem foldl_congr_mem {α β : Type} (f g : β → α → β) : ∀ (l : List α) (a : β),
    (∀ w i, i ∈ l → f w i = g w i) → l.foldl f a = l.foldl g a := by
  intro l
  induction l with
  | nil => intro a h; rfl
  | cons j rest ih =>
    intro a h
    simp only [List.foldl_cons]
    rw [h a j (List.mem_cons_self _ _)]
    exact ih _ (fun w i hi => h w i (List.mem_cons_of_mem _ hi))

/-- A 30 element window cut out of a mapped range by drop and take is the map
over the shifted 30 element range. -/
theorem drop_take_map_range (f : ℕ → ℚ) (n i k : ℕ) (h : i + k ≤ n) :
    (((List.range n).map f).drop i).take k = (List.range k).map (fun j => f (i + j)) := by
  have hn : n = i + (k + (n - i - k)) := by omega
  rw [hn, List.range_add, List.map_append, List.drop_left' (by simp), List.range_add,
    List.map_append, List.map_append, List.take_left' (by simp), List.map_map]
  rfl

/-- The inflow sum of the code window starting at offset i equals the explicit
sum over days asof+i+1 through asof+i+30. -/
theorem window_sum_fst (detail : ℤ → ℚ × ℚ) (asof : ℤ) (n i : ℕ) (h : i + 30 ≤ n) :
    ((((List.range n).map (fun (k : ℕ) => (detail (asof + (k : ℤ) + 1)).1)).drop i).take 30).sum
      = ((List.range 30).map (fun (j : ℕ) => (detail (asof + (i : ℤ) + (j : ℤ) + 1)).1)).sum := by
  rw [drop_take_map_range (fun (k : ℕ) => (detail (asof + (k : ℤ) + 1)).1) n i 30 h]
  apply congrArg
  apply List.map_congr_left
  intro j hj
  congr 2
  push_cast
  ring

/-- The outflow sum of the code window starting at offset i equals the
explicit sum over days asof+i+1 through asof+i+30. -/
theorem window_sum_snd (detail : ℤ → ℚ × ℚ) (asof : ℤ) (n i : ℕ) (h : i + 30 ≤ n) :
    ((((List.range n).map (fun (k : ℕ) => (detail (asof + (k : ℤ) + 1)).2)).drop i).take 30).sum
      = ((List.range 30).map (fun (j : ℕ) => (detail (asof + (i : ℤ) + (j : ℤ) + 1)).2)).sum := by
  rw [drop_take_map_range (fun (k : ℕ) => (detail (asof + (k : ℤ) + 1)).2) n i 30 h]
  apply congrArg
  apply List.map_congr_left
  intro j hj
  congr 2
  push_cast
  ring

/-- C2: for a horizon of at least 30 days and non negative hqla_base, the
worst_30d_outflow of compute_kpis_from_daily_detail is the maximum of the per
window net stressed outflows over every 30 day window starting on days 1
through horizon-29, floored at 1; in particular it is at least 1 for every
input, the all zero series included. -/
theorem worst30_characterization (detail : ℤ → ℚ × ℚ) (asof : ℤ) (hqla_base : ℚ)
    (horizon_days : ℕ) (hh : 30 ≤ horizon_days) (hq : 0 ≤ hqla_base) :
    1 ≤ (compute_kpis_from_daily_detail detail asof hqla_base horizon_days).worst_30d_outflow
    ∧ (∀ i, i < horizon_days - 29 →
        windowNet detail asof i
          ≤ (compute_kpis_from_daily_detail detail asof hqla_base horizon_days).worst_30d_outflow)
    ∧ ((compute_kpis_from_daily_detail detail asof hqla_base horizon_days).worst_30d_outflow = 1
        ∨ ∃ i, i < horizon_days - 29
            ∧ (compute_kpis_from_daily_detail detail asof hqla_base horizon_days).worst_30d_outflow
              = windowNet detail asof i) := by
  have hw : (compute_kpis_from_daily_detail detail asof hqla_base horizon_days).worst_30d_outflow
      = (List.range (horizon_days - 29)).foldl
          (fun w i => pymax w (windowNet detail asof i)) 1 := by
    simp only [compute_kpis_from_daily_detail, List.map_map, Function.comp_def,
      List.length_map, List.length_range]
    apply foldl_congr_mem
    intro w i hi
    have hi30 : i + 30 ≤ horizon_days := by
      have := List.mem_range.mp hi
      omega
    rw [windowNet, window_sum_fst detail asof horizon_days i hi30,
      window_sum_snd detail asof horizon_days i hi30]
  obtain ⟨h1, h2, h3⟩ := foldl_pymax_spec (windowNet detail asof)
    (List.range (horizon_days - 29)) 1
  rw [hw]
  refine ⟨h1, ?_, ?_⟩
  · intro i hi
    exact h2 i (List.mem_range.mpr hi)
  · rcases h3 with h | ⟨i, hi, hv⟩
    · exact Or.inl h
    · exact Or.inr ⟨i, List.mem_range.mp hi, hv⟩

/-- Closed instance of the C2 theorem on the all zero series with a 30 day
horizon: the floor makes worst_30d_outflow exactly 1. -/
theorem worst30_characterization_witness :
    (30 ≤ 30 ∧ (0 : ℚ) ≤ 0)
    ∧ (1 ≤ (compute_kpis_from_daily_detail (fun _ => (0, 0)) 0 0 30).worst_30d_outflow
      ∧ (∀ i, i < 30 - 29 →
          windowNet (fun _ => (0, 0)) 0 i
            ≤ (compute_kpis_from_daily_detail (fun _ => (0, 0)) 0 0 30).worst_30d_outflow)
      ∧ ((compute_kpis_from_daily_detail (fun _ => (0, 0)) 0 0 30).worst_30d_outflow = 1
          ∨ ∃ i, i < 30 - 29
              ∧ (compute_kpis_from_daily_detail (fun _ => (0, 0)) 0 0 30).worst_30d_outflow
                = windowNet (fun _ => (0, 0)) 0 i)) :=
  ⟨⟨le_refl 30, le_refl 0⟩,
    worst30_characterization (fun _ => (0, 0)) 0 0 30 (le_refl 30) (le_refl 0)⟩

/-- Indexing a mapped range inside its bounds reads the mapped value. -/
theorem getD_map_range (f : ℕ → ℚ) (n idx : ℕ) (h : idx < n) :
    ((List.range n).map f).getD idx 0 = f idx := by
  rw [List.getD_eq_getElem?_getD, List.getElem?_map, List.getElem?_range h]
  rfl

/-- Unrolling one step of the survival scan. -/
theorem survScan_succ (f : ℕ → ℚ) (hq : ℚ) (n : ℕ) :
    survScan f hq (n + 1)
      = ((survScan f hq n).1 + f n,
         pymax (survScan f hq n).2.1 ((survScan f hq n).1 + f n),
         if (survScan f hq n).2.2 = none ∧ (survScan f hq n).1 + f n > hq
           then some (n + 1) else (survScan f hq n).2.2) := by
  rw [survScan, List.range_succ, List.foldl_append, List.foldl_cons, List.foldl_nil]
  rfl

/-- Characterization of the survival scan: the cum component is the running
sum, the survival component is none exactly while the running sum has never
exceeded the threshold, and when it is some m, m is the first 1 based day
index whose running sum exceeds the threshold. -/
theorem survival_scan_spec (f : ℕ → ℚ) (hq : ℚ) : ∀ n : ℕ,
    (survScan f hq n).1 = ((List.range n).map f).sum
    ∧ ((survScan f hq n).2.2 = none →
        ∀ k, 1 ≤ k → k ≤ n → ((List.range k).map f).sum ≤ hq)
    ∧ (∀ m, (survScan f hq n).2.2 = some m →
        1 ≤ m ∧ m ≤ n ∧ hq < ((List.range m).map f).sum
          ∧ ∀ j, 1 ≤ j → j < m → ((List.range j).map f).sum ≤ hq) := by
  intro n
  induction n with
  | zero =>
    refine ⟨rfl, ?_, ?_⟩
    · intro _ k hk1 hk0
      omega
    · intro m hm
      simp [survScan] at hm
  | succ n ih =>
    obtain ⟨i1, i2, i3⟩ := ih
    have hsum : ((List.range (n + 1)).map f).sum = ((List.range n).map f).sum + f n := by
      rw [List.range_succ, List.map_append, List.sum_append]
      simp
    refine ⟨?_, ?_, ?_⟩
    · rw [survScan_succ]
      dsimp only
      rw [i1, hsum]
    · intro hnone k hk1 hkn
      rw [survScan_succ] at hnone
      dsimp only at hnone
      by_cases hc : (survScan f hq n).2.2 = none ∧ hq < (survScan f hq n).1 + f n
      · rw [if_pos hc] at hnone
        exact absurd hnone (by simp)
      · rw [if_neg hc] at hnone
        have hnotgt : ¬ (hq < (survScan f hq n).1 + f n) := fun hgt => hc ⟨hnone, hgt⟩
        rcases Nat.lt_or_ge k (n + 1) with hk | hk
        · exact i2 hnone k hk1 (by omega)
        · have hkeq : k = n + 1 := by omega
          subst hkeq
          rw [hsum, ← i1]
          exact not_lt.mp hnotgt
    · intro m hm
      rw [survScan_succ] at hm
      dsimp only at hm
      by_cases hc : (survScan f hq n).2.2 = none ∧ hq < (survScan f hq n).1 + f n
      · rw [if_pos hc] at hm
        have hmeq : n + 1 = m := Option.some.inj hm
        refine ⟨by omega, by omega, ?_, ?_⟩
        · rw [← hmeq, hsum, ← i1]
          exact hc.2
        · intro j hj1 hjm
          exact i2 hc.1 j hj1 (by omega)
      · rw [if_neg hc] at hm
        obtain ⟨hm1, hm2, hm3, hm4⟩ := i3 m hm
        exact ⟨hm1, by omega, hm3, hm4⟩

/-- C6 (amended): survival_days lies in [1, horizon_days] for every horizon of
at least one day; when some day in the horizon has cumulative net outflow
exceeding hqla_base, survival_days is the first such 1 based day index; when
no day exceeds, survival_days equals horizon_days. The converse of the last
part fails: survival_days also equals horizon_days when the first exceedance
happens exactly on the final day. -/
theorem survival_days_characterization (detail : ℤ → ℚ × ℚ) (asof : ℤ) (hqla_base : ℚ)
    (horizon_days : ℕ) (hh : 1 ≤ horizon_days) :
    (1 ≤ (compute_kpis_from_daily_detail detail asof hqla_base horizon_days).survival_days
      ∧ (compute_kpis_from_daily_detail detail asof hqla_base horizon_days).survival_days
          ≤ horizon_days)
    ∧ ((∃ k, 1 ≤ k ∧ k ≤ horizon_days ∧ hqla_base < cumNet detail asof k) →
        (hqla_base < cumNet detail asof
            ((compute_kpis_from_daily_detail detail asof hqla_base horizon_days).survival_days)
          ∧ ∀ j, 1 ≤ j →
              j < (compute_kpis_from_daily_detail detail asof hqla_base horizon_days).survival_days →
              cumNet detail asof j ≤ hqla_base))
    ∧ ((∀ k, 1 ≤ k → k ≤ horizon_days → cumNet detail asof k ≤ hqla_base) →
        (compute_kpis_from_daily_detail detail asof hqla_base horizon_days).survival_days
          = horizon_days) := by
  have hsurv : (compute_kpis_from_daily_detail detail asof hqla_base horizon_days).survival_days
      = ((survScan (fun (i : ℕ) => (detail (asof + (i : ℤ) + 1)).2
            - (detail (asof + (i : ℤ) + 1)).1) hqla_base horizon_days).2.2).getD
          horizon_days := by
    simp only [compute_kpis_from_daily_detail, List.map_map, Function.comp_def,
      List.length_map, List.length_range, survScan]
    apply congrArg (fun (st : ℚ × ℚ × Option ℕ) => (st.2.2).getD horizon_days)
    apply foldl_congr_mem
    intro st idx hidx
    have hlt : idx < horizon_days := List.mem_range.mp hidx
    rw [getD_map_range _ _ _ hlt, getD_map_range _ _ _ hlt]
  obtain ⟨s1, s2, s3⟩ := survival_scan_spec
    (fun (i : ℕ) => (detail (asof + (i : ℤ) + 1)).2 - (detail (asof + (i : ℤ) + 1)).1)
    hqla_base horizon_days
  have hcum : ∀ k, ((List.range k).map
      (fun (i : ℕ) => (detail (asof + (i : ℤ) + 1)).2 - (detail (asof + (i : ℤ) + 1)).1)).sum
      = cumNet detail asof k := fun k => rfl
  cases hopt : (survScan (fun (i : ℕ) => (detail (asof + (i : ℤ) + 1)).2
      - (detail (asof + (i : ℤ) + 1)).1) hqla_base horizon_days).2.2 with
  | none =>
    have hval : (compute_kpis_from_daily_detail detail asof hqla_base horizon_days).survival_days
        = horizon_days := by
      rw [hsurv, hopt]
      rfl
    refine ⟨⟨by omega, by omega⟩, ?_, fun _ => hval⟩
    intro ⟨k, hk1, hkh, hkgt⟩
    have := s2 hopt k hk1 hkh
    rw [hcum] at this
    exact absurd hkgt (not_lt.mpr this)
  | some m =>
    obtain ⟨hm1, hm2, hm3, hm4⟩ := s3 m hopt
    rw [hcum] at hm3
    have hval : (compute_kpis_from_daily_detail detail asof hqla_base horizon_days).survival_days
        = m := by
      rw [hsurv, hopt]
      rfl
    refine ⟨⟨by omega, by omega⟩, ?_, ?_⟩
    · intro _
      rw [hval]
      refine ⟨hm3, ?_⟩
      intro j hj1 hjm
      have := hm4 j hj1 hjm
      rw [hcum] at this
      exact this
    · intro hall
      exact absurd hm3 (not_lt.mpr (hall m hm1 hm2))

/-- Closed instance of the amended C6 theorem on the all zero series with a
two day horizon: survival_days equals the horizon. -/
theorem survival_days_characterization_witness :
    1 ≤ 2
    ∧ ((1 ≤ (compute_kpis_from_daily_detail (fun _ => ((0:ℚ), (0:ℚ))) 0 0 2).survival_days
      ∧ (compute_kpis_from_daily_detail (fun _ => ((0:ℚ), (0:ℚ))) 0 0 2).survival_days ≤ 2)
    ∧ ((∃ k, 1 ≤ k ∧ k ≤ 2 ∧ (0:ℚ) < cumNet (fun _ => ((0:ℚ), (0:ℚ))) 0 k) →
        ((0:ℚ) < cumNet (fun _ => ((0:ℚ), (0:ℚ))) 0
            ((compute_kpis_from_daily_detail (fun _ => ((0:ℚ), (0:ℚ))) 0 0 2).survival_days)
          ∧ ∀ j, 1 ≤ j →
              j < (compute_kpis_from_daily_detail (fun _ => ((0:ℚ), (0:ℚ))) 0 0 2).survival_days →
              cumNet (fun _ => ((0:ℚ), (0:ℚ))) 0 j ≤ 0))
    ∧ ((∀ k, 1 ≤ k → k ≤ 2 → cumNet (fun _ => ((0:ℚ), (0:ℚ))) 0 k ≤ 0) →
        (compute_kpis_from_daily_detail (fun _ => ((0:ℚ), (0:ℚ))) 0 0 2).survival_days = 2)) :=
  ⟨by norm_num, survival_days_characterization (fun _ => ((0:ℚ), (0:ℚ))) 0 0 2 (by norm_num)⟩

/-- C6 (counterexample): with horizon 2, hqla 0 and the only outflow 5 on day
2, the cumulative net outflow exceeds hqla on the final day, so survival_days
equals horizon_days even though an exceedance exists: the claimed equivalence
between survival_days = horizon_days and never exceeding fails. -/
theorem survival_horizon_iff_counterexample :
    (compute_kpis_from_daily_detail
        (fun d => ((0 : ℚ), if d = 2 then (5 : ℚ) else 0)) 0 0 2).survival_days = 2
    ∧ (0 : ℚ) < cumNet (fun d => ((0 : ℚ), if d = 2 then (5 : ℚ) else 0)) 0 2
    ∧ ¬ (((compute_kpis_from_daily_detail
          (fun d => ((0 : ℚ), if d = 2 then (5 : ℚ) else 0)) 0 0 2).survival_days = 2)
        ↔ (∀ k, 1 ≤ k → k ≤ 2 →
            cumNet (fun d => ((0 : ℚ), if d = 2 then (5 : ℚ) else 0)) 0 k ≤ 0)) := by
  have hs : (compute_kpis_from_daily_detail
      (fun d => ((0 : ℚ), if d = 2 then (5 : ℚ) else 0)) 0 0 2).survival_days = 2 := by
    norm_num [compute_kpis_from_daily_detail, List.range_succ, pymax, pymin]
  have hc : (0 : ℚ) < cumNet (fun d => ((0 : ℚ), if d = 2 then (5 : ℚ) else 0)) 0 2 := by
    norm_num [cumNet, List.range_succ]
  exact ⟨hs, hc, fun hiff =>
    absurd hc (not_lt.mpr (hiff.mp hs 2 (by norm_num) (le_refl 2)))⟩

end LiquidityEngine
